import Mathlib

/-!
Verification development for the BackUP2.0 Sublime Text backup plugin
(`src/ftp_backup.py`).

We shallowly embed the plugin's core — path resolution
(`FtpBackupManager._extract_relative_path`, `extract_site_name`), the
site-key sanitization, the backup operation (`FtpBackupManager.backup_file`
together with `_save_config`), and the zip-placement logic
(`FtpBackupCreateZipCommand.create_zip_archive`) — as executable Lean
functions, and prove or refute the specification's claims about them.

Modelling conventions:
* `os.path` functions (`join`, `basename`, `dirname`, `normpath`) are given
  POSIX semantics ("/" separator), matching the forward-slash paths used in
  the specification's end-to-end examples.  The explicit backslash
  normalization performed by the Python source itself
  (`file_path.replace('/', '\\')` and the backslash-based markers) is
  modelled exactly as written.
* Strings are Lean `String`s; the character-level work is done on the
  underlying `List Char`.
* The filesystem is a map from absolute path to file content
  (`String → Option String`); directory creation (`os.makedirs`) has no
  observable effect in this model and `shutil.copy2` is assumed to succeed.
  One exception IS modelled, because it fires on every non-skipped call:
  `self._save_config()` at source line 246 raises `AttributeError` — the
  `def _save_config` at line 342 is indented inside the module-level
  `create_backup_zip` function (line 255), after its `return` statements,
  and is never bound to `FtpBackupManager`, whose class body ends at line
  253.  The `except` at line 250 catches it, so every call that reaches
  line 246 has already completed its file copies and in-memory manifest
  rewrite (lines 200-244) but returns the `(None, None)` sentinel and never
  writes the config file.
* The wall clock (`datetime.now()`) and the host name
  (`socket.gethostname()`) are ambient parameters collected in `Env`; the
  several `datetime.now()` calls inside one `backup_file` call are modelled
  as returning the same instant.
-/

/-- `pat` is a prefix of `hay` (character lists). -/
def listStarts : List Char → List Char → Bool
  | _, [] => true
  | [], _ :: _ => false
  | h :: hs, p :: ps => h == p && listStarts hs ps

/-- Python's `pat in hay` substring test on character lists. -/
def listHasSub : List Char → List Char → Bool
  | [], pat => pat.isEmpty
  | h :: t, pat => listStarts (h :: t) pat || listHasSub t pat

/-- Remainder of `s` after the first (leftmost) occurrence of `pat`:
Python's `s.split(pat, 1)[1]` guarded by `pat in s`. -/
def afterFirst : List Char → List Char → Option (List Char)
  | [], pat => if pat.isEmpty then some [] else none
  | h :: t, pat =>
    if listStarts (h :: t) pat then some (List.drop pat.length (h :: t))
    else afterFirst t pat

/-- Python's `s.replace(a, b)` for single characters. -/
def charReplace (a b : Char) (s : String) : String :=
  String.mk (s.data.map (fun c => if c == a then b else c))

/-- Python's `s.split(sep)` for a single-character separator
(keeps empty fields, `"".split(sep) == ['']`). -/
def splitChar (sep : Char) : List Char → List (List Char)
  | [] => [[]]
  | h :: t =>
    match splitChar sep t with
    | [] => [[]]
    | x :: xs => if h == sep then [] :: x :: xs else (h :: x) :: xs

/-- POSIX `os.path.basename`: the part after the last `/`. -/
def basenamePosix (s : String) : String :=
  String.mk ((s.data.reverse.takeWhile (fun c => c != '/')).reverse)

/-- `pat` is a prefix of `s` (strings). -/
def strStarts (s pat : String) : Bool := listStarts s.data pat.data

/-- `pat` is a suffix of `s` (strings). -/
def strEnds (s pat : String) : Bool := listStarts s.data.reverse pat.data.reverse

/-- POSIX `os.path.join` for two components. -/
def pyJoin (a b : String) : String :=
  if strStarts b "/" then b
  else if strEnds a "/" then a ++ b
  else a ++ "/" ++ b

/-- The `project_roots` list of `FtpBackupManager.__init__`
(source lines 49-56). -/
def project_roots : List String :=
  ["var\\www\\", "www\\", "public_html\\", "local\\", "htdocs\\", "home\\"]

/-- The `for root in self.project_roots` loop of `_extract_relative_path`
(source lines 81-86): the first listed root marker occurring anywhere in the
normalized path wins, and everything after its first occurrence is returned. -/
def findRootSuffix : List String → List Char → Option (List Char)
  | [], _ => none
  | r :: rs, s =>
    match afterFirst s r.data with
    | some rest => some rest
    | none => findRootSuffix rs s

/-- The `re.search(r'Temp\\[^\\]+\\(.+)', normalized_path)` fallback of
`_extract_relative_path` (source lines 88-92): leftmost occurrence of
`Temp\` followed by a nonempty backslash-free run, a backslash, and a
nonempty remainder (the captured group).  Newlines are not modelled. -/
def tempMatch : List Char → Option (List Char)
  | [] => none
  | h :: t =>
    if listStarts (h :: t) ("Temp\\".data) then
      let rest := List.drop 5 (h :: t)
      let run := rest.takeWhile (fun c => c != '\\')
      let remainder := List.drop (run.length + 1) rest
      if 0 < run.length && run.length < rest.length && 0 < remainder.length then
        some remainder
      else tempMatch t
    else tempMatch t

/-- `FtpBackupManager._extract_relative_path` (source lines 75-98). -/
def extract_relative_path (file_path : String) : String :=
  let normalized := (charReplace '/' '\\' file_path).data
  match findRootSuffix project_roots normalized with
  | some rest => charReplace '\\' '/' (String.mk rest)
  | none =>
    match tempMatch normalized with
    | some g => charReplace '\\' '/' (String.mk g)
    | none => basenamePosix file_path

/-- The web-root markers of the first `extract_site_name` pattern
`(?:var\\www\\|www\\|public_html\\|local\\|htdocs\\|home\\)([^\\]+)`
(source line 107), in alternation order. -/
def site_markers : List String :=
  ["var\\www\\", "www\\", "public_html\\", "local\\", "htdocs\\", "home\\"]

/-- Try the marker alternation at a fixed position: the first marker that
matches here and is followed by at least one non-backslash character
captures the backslash-free run after it. -/
def tryMarkersAt (s : List Char) : List String → Option (List Char)
  | [] => none
  | mk :: ms =>
    if listStarts s mk.data then
      let cap := (List.drop mk.length s).takeWhile (fun c => c != '\\')
      if cap.isEmpty then tryMarkersAt s ms else some cap
    else tryMarkersAt s ms

/-- Leftmost-first search for the first `extract_site_name` pattern. -/
def sitePattern1 : List Char → Option (List Char)
  | [] => none
  | h :: t =>
    match tryMarkersAt (h :: t) site_markers with
    | some cap => some cap
    | none => sitePattern1 t

/-- The second `extract_site_name` pattern `ftp://([^/]+)` (source line 108),
searched in the backslash-normalized path. -/
def sitePattern2 : List Char → Option (List Char)
  | [] => none
  | h :: t =>
    if listStarts (h :: t) ("ftp://".data) then
      let cap := (List.drop 6 (h :: t)).takeWhile (fun c => c != '/')
      if cap.isEmpty then sitePattern2 t else some cap
    else sitePattern2 t

/-- The third `extract_site_name` pattern
`\\([^\\]+)\\(?:www|public_html|httpdocs)\\` (source line 109). -/
def sitePattern3 : List Char → Option (List Char)
  | [] => none
  | h :: t =>
    if h == '\\' then
      let cap := t.takeWhile (fun c => c != '\\')
      let rest := List.drop cap.length t
      if !cap.isEmpty &&
         (listStarts rest ("\\www\\".data) || listStarts rest ("\\public_html\\".data) ||
          listStarts rest ("\\httpdocs\\".data)) then
        some cap
      else sitePattern3 t
    else sitePattern3 t

/-- Lower-cased comparison targets of the path-structure scan
(source line 120). -/
def webRootNames : List (List Char) :=
  ["www".data, "public_html".data, "httpdocs".data, "htdocs".data]

/-- The `for i, part in enumerate(parts)` scan of `extract_site_name`
(source lines 118-123): the segment immediately before the first web-root
segment that has a predecessor. -/
def scanWebRoot : Option (List Char) → List (List Char) → Option (List Char)
  | _, [] => none
  | prev, p :: rest =>
    if webRootNames.contains (p.map Char.toLower) then
      match prev with
      | some q => some q
      | none => scanWebRoot (some p) rest
    else scanWebRoot (some p) rest

/-- The dotted-segment scan of `extract_site_name` (source lines 124-127):
the first segment containing `.` that does not end in a recognized file
extension. -/
def dotScan : List (List Char) → Option (List Char)
  | [] => none
  | p :: rest =>
    if p.contains '.' &&
       !(listStarts p.reverse (".php".data.reverse) ||
         listStarts p.reverse (".html".data.reverse) ||
         listStarts p.reverse (".js".data.reverse) ||
         listStarts p.reverse (".css".data.reverse)) then
      some p
    else dotScan rest

/-- `FtpBackupManager.extract_site_name` (source lines 100-135).
The final fallback `socket.gethostname()` is the `hostname` parameter. -/
def extract_site_name (hostname : String) (file_path : String) : String :=
  let normalized := (charReplace '/' '\\' file_path).data
  match sitePattern1 normalized with
  | some c => String.mk c
  | none =>
    match sitePattern2 normalized with
    | some c => String.mk c
    | none =>
      match sitePattern3 normalized with
      | some c => String.mk c
      | none =>
        let parts := splitChar '\\' normalized
        match scanWebRoot none parts with
        | some c => String.mk c
        | none =>
          match dotScan parts with
          | some c => String.mk c
          | none => hostname

/-- Whether a character is in the Cyrillic block U+0400..U+04FF.  Python's
`\w` (Unicode mode, the default for `str` patterns) counts these as word
characters. -/
def isCyrillic (c : Char) : Bool := decide (0x400 ≤ c.toNat ∧ c.toNat ≤ 0x4FF)

/-- Python's `\w` character class as used by
`re.sub(r'[^\w\-_.]', '_', site_name)` (source line 160).  Python's `\w` on
`str` is Unicode-aware; it is modelled exactly on ASCII (letters, digits,
underscore) and on the Cyrillic block, the only non-ASCII characters this
development evaluates. -/
def pyIsWordChar (c : Char) : Bool := c.isAlphanum || c == '_' || isCyrillic c

/-- The per-character action of `re.sub(r'[^\w\-_.]', '_', site_name)`:
keep word characters, `-`, `_`, `.`; replace everything else with `_`. -/
def sanitizeChar (c : Char) : Char :=
  if pyIsWordChar c || c == '-' || c == '_' || c == '.' then c else '_'

/-- The site-key sanitization `re.sub(r'[^\w\-_.]', '_', site_name)`
(source line 160). -/
def sanitize_site_key (s : String) : String :=
  String.mk (s.data.map sanitizeChar)

/-- The character set `[A-Za-z0-9_.-]` that the specification says the
sanitized site key is drawn from. -/
def asciiSiteChar (c : Char) : Bool :=
  c.isAlphanum || c == '_' || c == '.' || c == '-'

/-- One entry of the persisted backup manifest (`self.server_backup_map`):
created at source lines 207-210 / 232-235 with `first_backup_time` and
`site`, later given `last_backup_time` at lines 242-244. -/
structure Entry where
  first_backup_time : String
  last_backup_time : Option String
  site : String
deriving DecidableEq

/-- The in-memory manifest `self.server_backup_map`, keyed by relative
path. -/
abbrev Manifest : Type := String → Option Entry

/-- The filesystem: absolute path to file content. -/
abbrev Fs : Type := String → Option String

/-- The mutable state touched by `backup_file`: the filesystem, the
in-memory manifest, and the persisted config file
(`backup_config.json`, read at startup by `_load_config`).  Because the
`def _save_config` at source line 342 is nested inside the module-level
`create_backup_zip` rather than being a method of `FtpBackupManager`, the
config file is never written back: `config_file` is left unchanged by
every `backup_file` call. -/
structure BackupState where
  fs : Fs
  server_backup_map : Manifest
  config_file : Option Manifest

/-- Ambient environment: the two `datetime.now()` formats used by
`backup_file` and the host name.  The several `datetime.now()` calls inside
one `backup_file` call are modelled as one instant. -/
structure Env where
  monthYear : String
  now : String
  hostname : String

/-- The explicit backup mode: Python `mode='before'` / `mode='after'`;
`Option.none` is Python `mode=None` (the default/auto mode). -/
inductive Mode where
  | before
  | after
deriving DecidableEq

/-- The `excluded_files` list of `backup_file` (source lines 144-149). -/
def excluded_files : List String :=
  ["default.sublime-commands", ".sublime-commands", ".DS_Store", "Thumbs.db"]

/-- The exclusion test of `backup_file` (source lines 151-152):
base name listed, or any listed name a substring of the full path. -/
def isExcluded (file_path : String) : Bool :=
  excluded_files.contains (basenamePosix file_path) ||
  excluded_files.any (fun e => listHasSub file_path.data e.data)

/-- Python dict update `m[k] = e` on the manifest. -/
def updMap (m : Manifest) (k : String) (e : Entry) : Manifest :=
  fun x => if x = k then some e else m x

/-- `shutil.copy2(src, dst)`: the destination gets the source's current
content. -/
def copyTo (fs : Fs) (src dst : String) : Fs :=
  fun p => if p = dst then fs src else fs p

/-- The directory layout and identity computed by `backup_file` before the
mode dispatch (source lines 159-198). -/
structure Layout where
  site_name : String
  server_key : String
  before_path : String
  after_path : String
  relative_path : String

/-- Source lines 159-198 of `backup_file`: site name (`server_name or
self.extract_site_name(file_path)`, where Python treats `""` as falsy),
sanitized site key, `root/<key>/<Month Year>/[task_<n>/]{before,after}`
directories (the task folder is skipped for a falsy `task_number`), and the
relative path. -/
def resolveLayout (env : Env) (backup_root file_path : String)
    (server_name : Option String) (task_number : Option String) : Layout :=
  let site_name :=
    match server_name with
    | some s => if s = "" then extract_site_name env.hostname file_path else s
    | none => extract_site_name env.hostname file_path
  let server_key := sanitize_site_key site_name
  let month_year_folder := pyJoin (pyJoin backup_root server_key) env.monthYear
  let task_folder :=
    match task_number with
    | some t => if t = "" then month_year_folder else pyJoin month_year_folder ("task_" ++ t)
    | none => month_year_folder
  { site_name := site_name
    server_key := server_key
    before_path := pyJoin task_folder "before"
    after_path := pyJoin task_folder "after"
    relative_path := extract_relative_path file_path }

/-- The mode dispatch of `backup_file` (source lines 200-240):
`mode='before'` copies into the before slot and creates a manifest entry if
none exists; `mode='after'` removes and rewrites the after slot only;
default mode copies into the before slot and creates the entry only when
the relative path has no entry, then always rewrites the after slot. -/
def modeStep (env : Env) (L : Layout) (file_path : String) (mode : Option Mode)
    (st : BackupState) : BackupState :=
  match mode with
  | some Mode.before =>
    let fs1 := copyTo st.fs file_path (pyJoin L.before_path L.relative_path)
    let m1 :=
      match st.server_backup_map L.relative_path with
      | some _ => st.server_backup_map
      | none => updMap st.server_backup_map L.relative_path
          { first_backup_time := env.now, last_backup_time := none, site := L.site_name }
    { st with fs := fs1, server_backup_map := m1 }
  | some Mode.after =>
    { st with fs := copyTo st.fs file_path (pyJoin L.after_path L.relative_path) }
  | none =>
    let st1 :=
      match st.server_backup_map L.relative_path with
      | some _ => st
      | none =>
        { st with
          fs := copyTo st.fs file_path (pyJoin L.before_path L.relative_path)
          server_backup_map := updMap st.server_backup_map L.relative_path
            { first_backup_time := env.now, last_backup_time := none, site := L.site_name } }
    { st1 with fs := copyTo st1.fs file_path (pyJoin L.after_path L.relative_path) }

/-- Source lines 242-244 of `backup_file`: if the relative path now has a
manifest entry, rewrite its `last_backup_time` and `site` in memory.  The
following `self._save_config()` at line 246 raises `AttributeError` —
`_save_config` (line 342) is nested inside the module-level
`create_backup_zip` (line 255) and is not a method of `FtpBackupManager` —
so the config file is never written. -/
def finalizeEntry (env : Env) (L : Layout) (st : BackupState) : BackupState :=
  match st.server_backup_map L.relative_path with
  | some e =>
    { st with
      server_backup_map := updMap st.server_backup_map L.relative_path
        { e with last_backup_time := some env.now, site := L.site_name } }
  | none => st

/-- `FtpBackupManager.backup_file` (source lines 137-253): exclusion check,
existence check, layout resolution, mode dispatch, and the in-memory
manifest finalization of lines 242-244.  The call then invokes
`self._save_config()` (line 246), which raises `AttributeError` because
`_save_config` is not a method of the class; the `except` at line 250
catches it, so every non-skipped call returns the `(None, None)` sentinel
(the `return before_path, after_path` at line 248 is unreachable) with the
copies and in-memory manifest rewrite already done and the config file
untouched. -/
def backup_file (env : Env) (backup_root file_path : String)
    (server_name : Option String) (mode : Option Mode) (task_number : Option String)
    (st : BackupState) : (Option String × Option String) × BackupState :=
  if isExcluded file_path then ((none, none), st)
  else if (st.fs file_path).isNone then ((none, none), st)
  else
    let L := resolveLayout env backup_root file_path server_name task_number
    let st2 := finalizeEntry env L (modeStep env L file_path mode st)
    ((none, none), st2)

/-- The source file's content changes between two `backup_file` calls:
only the entry at `fp` is replaced. -/
def midState (st : BackupState) (fp c : String) : BackupState :=
  { st with fs := fun p => if p = fp then some c else st.fs p }

/-! ## Zip placement (`FtpBackupCreateZipCommand.create_zip_archive`)

A folder inside the backup tree is represented by its nonempty path
segments: the source computes
`folder_parts = [p for p in os.path.normpath(folder_path).split(os.sep) if p]`
(source lines 680-685), and for a normalized absolute POSIX path that list
of segments determines the path (`pathString`).  `os.path.dirname` on such
a path drops the last segment and `os.path.basename` is the last
segment. -/

/-- Join segments with `/`. -/
def joinParts : List String → String
  | [] => ""
  | [p] => p
  | p :: q :: rest => p ++ "/" ++ joinParts (q :: rest)

/-- The absolute path with the given segments. -/
def pathString (parts : List String) : String := "/" ++ joinParts parts

/-- The site-name scan of `create_zip_archive` (source lines 688-692):
the first segment matching `re.match(r'[\w\-_.]+', part)` — i.e. beginning
with a word character, `-`, `_` or `.` — that is not `task_`-prefixed and
not literally `before`/`after`; default `"backup"`. -/
def zip_site_name (folder_parts : List String) : String :=
  match folder_parts.find? (fun p =>
      (match p.data with
       | [] => false
       | c :: _ => pyIsWordChar c || c == '-' || c == '.') &&
      !strStarts p "task_" && !(p == "before" || p == "after")) with
  | some p => p
  | none => "backup"

/-- `re.sub(r'[\\/:*?"<>|]', '_', site_name)` (source line 695). -/
def safe_site_name (s : String) : String :=
  String.mk (s.data.map (fun c =>
    if c == '\\' || c == '/' || c == ':' || c == '*' || c == '?' ||
       c == '"' || c == '<' || c == '>' || c == '|' then '_' else c))

/-- The archive file name (source lines 698-701):
`backup_<safe_site_name>[_<folder_type>]_<date_str>.zip`. -/
def zip_name (folder_parts : List String) (folder_type : Option String)
    (date_str : String) : String :=
  match folder_type with
  | some t =>
    "backup_" ++ safe_site_name (zip_site_name folder_parts) ++ "_" ++ t ++
      "_" ++ date_str ++ ".zip"
  | none =>
    "backup_" ++ safe_site_name (zip_site_name folder_parts) ++ "_" ++ date_str ++ ".zip"

/-- The zip output directory (source lines 704-725).  If any segment is
`task_`-prefixed, the zip goes into the path up to and including the first
such segment (with the Windows drive prefix re-attached when the path
contains `:`, source lines 714-716, rendered here in the POSIX style of
this model).  Otherwise the zip goes into the folder's parent
(`os.path.dirname`), or into the grandparent when the folder itself is a
`before`/`after` leaf. -/
def zip_dir (folder_parts : List String) : String :=
  if folder_parts.any (fun p => strStarts p "task_") then
    let task_path_parts :=
      folder_parts.take (folder_parts.findIdx (fun p => strStarts p "task_") + 1)
    if folder_parts.any (fun p => p.data.contains ':') then
      String.mk ((splitChar ':' (pathString folder_parts).data).headD []) ++ ":" ++
        pathString task_path_parts
    else pathString task_path_parts
  else
    let zd := folder_parts.dropLast
    match folder_parts.getLast? with
    | some b => if b == "before" || b == "after" then pathString zd.dropLast else pathString zd
    | none => pathString zd

/-! ## Concrete fixtures for witnesses and counterexamples -/

/-- A fixed call-time environment: October 2026. -/
def envA : Env :=
  { monthYear := "October 2026", now := "2026-10-12 10:00:00", hostname := "hostA" }

/-- A later call-time environment in the same month, on the same host. -/
def envB : Env :=
  { monthYear := "October 2026", now := "2026-10-12 11:30:00", hostname := "hostA" }

/-- The specification's example source file. -/
def fpA : String := "/var/www/acme/index.php"

/-- A filesystem holding only the example source file with content `"v1"`. -/
def fsA : Fs := fun p => if p = fpA then some "v1" else none

/-- A fresh manager state: example file on disk, empty manifest, no config
file yet. -/
def stA : BackupState :=
  { fs := fsA, server_backup_map := fun _ => none, config_file := none }

/-- A pre-existing manifest entry for the example file's relative path. -/
def entA : Entry :=
  { first_backup_time := "2026-09-01 09:00:00"
    last_backup_time := some "2026-09-02 09:00:00"
    site := "acme" }

/-- A manager state in which the example file already has a manifest
entry. -/
def stB : BackupState :=
  { fs := fsA
    server_backup_map := fun k => if k = "acme/index.php" then some entA else none
    config_file := none }

/-- The task-level `before` folder of the specification's zip example. -/
def taskBeforeParts : List String := ["backup", "acme", "May 2025", "task_42", "before"]

/-- A month-level `before` folder (no task segment on the path). -/
def monthBeforeParts : List String := ["backup", "acme", "May 2025", "before"]

/-! ## Helper lemmas -/

theorem updMap_self (m : Manifest) (k : String) (e : Entry) :
    updMap m k e k = some e := by
  simp [updMap]

theorem updMap_ne (m : Manifest) (k : String) (e : Entry) (x : String) (h : x ≠ k) :
    updMap m k e x = m x := by
  simp [updMap, h]

theorem copyTo_self (fs : Fs) (src dst : String) : copyTo fs src dst dst = fs src := by
  simp [copyTo]

theorem copyTo_ne (fs : Fs) (src dst p : String) (h : p ≠ dst) :
    copyTo fs src dst p = fs p := by
  simp [copyTo, h]

theorem modeStep_map_ne (env : Env) (L : Layout) (fp : String) (mode : Option Mode)
    (st : BackupState) (k : String) (h : k ≠ L.relative_path) :
    (modeStep env L fp mode st).server_backup_map k = st.server_backup_map k := by
  cases mode with
  | none =>
    cases h2 : st.server_backup_map L.relative_path <;>
      simp [modeStep, h2, updMap_ne _ _ _ _ h]
  | some m =>
    cases m with
    | before =>
      cases h2 : st.server_backup_map L.relative_path <;>
        simp [modeStep, h2, updMap_ne _ _ _ _ h]
    | after => simp [modeStep]

theorem modeStep_map_keep (env : Env) (L : Layout) (fp : String) (mode : Option Mode)
    (st : BackupState) (e : Entry)
    (h : st.server_backup_map L.relative_path = some e) :
    (modeStep env L fp mode st).server_backup_map L.relative_path = some e := by
  cases mode with
  | none => simp [modeStep, h]
  | some m =>
    cases m with
    | before => simp [modeStep, h]
    | after => simpa [modeStep] using h

theorem modeStep_map_insert (env : Env) (L : Layout) (fp : String) (mode : Option Mode)
    (st : BackupState)
    (h : st.server_backup_map L.relative_path = none)
    (hm : mode ≠ some Mode.after) :
    (modeStep env L fp mode st).server_backup_map L.relative_path
      = some { first_backup_time := env.now, last_backup_time := none, site := L.site_name } := by
  cases mode with
  | none => simp [modeStep, h, updMap_self]
  | some m =>
    cases m with
    | before => simp [modeStep, h, updMap_self]
    | after => exact absurd rfl hm

theorem modeStep_after_map (env : Env) (L : Layout) (fp : String) (st : BackupState) :
    (modeStep env L fp (some Mode.after) st).server_backup_map = st.server_backup_map := rfl

theorem modeStep_before_fs (env : Env) (L : Layout) (fp : String) (st : BackupState) :
    (modeStep env L fp (some Mode.before) st).fs
      = copyTo st.fs fp (pyJoin L.before_path L.relative_path) := by
  cases h2 : st.server_backup_map L.relative_path <;> simp [modeStep, h2]

theorem modeStep_default_fs_fresh (env : Env) (L : Layout) (fp : String) (st : BackupState)
    (h : st.server_backup_map L.relative_path = none) :
    (modeStep env L fp none st).fs
      = copyTo (copyTo st.fs fp (pyJoin L.before_path L.relative_path)) fp
          (pyJoin L.after_path L.relative_path) := by
  simp [modeStep, h]

theorem modeStep_default_fs_seen (env : Env) (L : Layout) (fp : String) (st : BackupState)
    (e : Entry) (h : st.server_backup_map L.relative_path = some e) :
    (modeStep env L fp none st).fs
      = copyTo st.fs fp (pyJoin L.after_path L.relative_path) := by
  simp [modeStep, h]

theorem modeStep_config (env : Env) (L : Layout) (fp : String) (mode : Option Mode)
    (st : BackupState) :
    (modeStep env L fp mode st).config_file = st.config_file := by
  cases mode with
  | none => cases h2 : st.server_backup_map L.relative_path <;> simp [modeStep, h2]
  | some m =>
    cases m with
    | before => cases h2 : st.server_backup_map L.relative_path <;> simp [modeStep, h2]
    | after => rfl

theorem finalize_fs (env : Env) (L : Layout) (st : BackupState) :
    (finalizeEntry env L st).fs = st.fs := by
  cases h2 : st.server_backup_map L.relative_path <;> simp [finalizeEntry, h2]

theorem finalize_config (env : Env) (L : Layout) (st : BackupState) :
    (finalizeEntry env L st).config_file = st.config_file := by
  cases h2 : st.server_backup_map L.relative_path <;> simp [finalizeEntry, h2]

theorem finalize_map_none (env : Env) (L : Layout) (st : BackupState)
    (h : st.server_backup_map L.relative_path = none) :
    (finalizeEntry env L st).server_backup_map = st.server_backup_map := by
  simp [finalizeEntry, h]

theorem finalize_map_some (env : Env) (L : Layout) (st : BackupState) (e : Entry)
    (h : st.server_backup_map L.relative_path = some e) :
    (finalizeEntry env L st).server_backup_map
      = updMap st.server_backup_map L.relative_path
          { e with last_backup_time := some env.now, site := L.site_name } := by
  simp [finalizeEntry, h]

theorem finalize_map_ne (env : Env) (L : Layout) (st : BackupState) (k : String)
    (h : k ≠ L.relative_path) :
    (finalizeEntry env L st).server_backup_map k = st.server_backup_map k := by
  cases h2 : st.server_backup_map L.relative_path <;>
    simp [finalizeEntry, h2, updMap_ne _ _ _ _ h]

theorem backup_file_run (env : Env) (root fp : String) (sn : Option String)
    (mode : Option Mode) (tn : Option String) (st : BackupState)
    (hexcl : isExcluded fp = false) (hex : (st.fs fp).isNone = false) :
    backup_file env root fp sn mode tn st
      = ((none, none),
         finalizeEntry env (resolveLayout env root fp sn tn)
           (modeStep env (resolveLayout env root fp sn tn) fp mode st)) := by
  simp [backup_file, hexcl, hex]

theorem backup_file_skip (env : Env) (root fp : String) (sn : Option String)
    (mode : Option Mode) (tn : Option String) (st : BackupState)
    (h : isExcluded fp = true ∨ (st.fs fp).isNone = true) :
    backup_file env root fp sn mode tn st = ((none, none), st) := by
  rcases h with h | h <;> simp [backup_file, h]

theorem resolveLayout_env_congr (env1 env2 : Env) (root fp : String)
    (sn : Option String) (tn : Option String)
    (hmy : env2.monthYear = env1.monthYear) (hhost : env2.hostname = env1.hostname) :
    resolveLayout env2 root fp sn tn = resolveLayout env1 root fp sn tn := by
  unfold resolveLayout
  rw [hmy, hhost]

theorem findIdx_append_of_none {α : Type} (p : α → Bool) (l1 l2 : List α)
    (h : ∀ x ∈ l1, p x = false) :
    (l1 ++ l2).findIdx p = l1.length + l2.findIdx p := by
  induction l1 with
  | nil => simp
  | cons a t ih =>
    have ha : p a = false := h a (by simp)
    have ht : ∀ x ∈ t, p x = false := fun x hx => h x (by simp [hx])
    simp [List.findIdx_cons, ha, ih ht]
    omega

theorem take_append_length {α : Type} (l1 l2 : List α) (n : Nat) :
    (l1 ++ l2).take (l1.length + n) = l1 ++ l2.take n := by
  induction l1 with
  | nil => simp
  | cons a t ih => simp [List.take_succ_cons, Nat.succ_add, ih]

theorem sanitizeChar_idem (c : Char) : sanitizeChar (sanitizeChar c) = sanitizeChar c := by
  unfold sanitizeChar
  by_cases h : (pyIsWordChar c || c == '-' || c == '_' || c == '.') = true
  · simp [h]
  · simp [h]

theorem mapSanitize_idem (l : List Char) :
    (l.map sanitizeChar).map sanitizeChar = l.map sanitizeChar := by
  induction l with
  | nil => rfl
  | cons c t ih => simp [sanitizeChar_idem, ih]

/-! ## Claim C7: site-key sanitization character set -/

/-- Claim C7, counterexample: the sanitization does not replace every
character outside `[A-Za-z0-9_.-]` — Python's `\w` is Unicode-aware, so the
Cyrillic letter `Ж`, which is outside that ASCII set, survives
`re.sub(r'[^\w\-_.]', '_', ·)` unchanged. -/
theorem sanitize_keeps_nonascii_word_char :
    sanitize_site_key "Ж" = "Ж" ∧ asciiSiteChar 'Ж' = false := by
  exact ⟨by decide, by decide⟩

/-- Claim C7 (amended): for strings of ASCII characters, the site-key
sanitization replaces every character outside `[A-Za-z0-9_.-]` with `_`,
so every character of the result lies in that set; in general every
non-word character other than `.` and `-` is replaced, but non-ASCII word
characters (for example Cyrillic letters) are kept. -/
theorem sanitize_ascii_chars (s : String)
    (h : s.data.all (fun c => decide (c.toNat < 128)) = true) :
    (sanitize_site_key s).data.all asciiSiteChar = true := by
  rw [List.all_eq_true]
  intro c hc
  rw [List.all_eq_true] at h
  simp only [sanitize_site_key, List.mem_map] at hc
  obtain ⟨a, ha, rfl⟩ := hc
  have ha128 : a.toNat < 128 := by simpa using h a ha
  by_cases hk : (pyIsWordChar a || a == '-' || a == '_' || a == '.') = true
  · simp only [sanitizeChar, if_pos hk]
    have hcyr : isCyrillic a = false := by
      unfold isCyrillic
      simp only [decide_eq_false_iff_not, not_and]
      omega
    simp only [pyIsWordChar, hcyr] at hk
    simp only [asciiSiteChar]
    simp only [Bool.or_eq_true, beq_iff_eq] at hk ⊢
    tauto
  · simp only [sanitizeChar, if_neg hk]
    decide

/-- Witness for `sanitize_ascii_chars` at a concrete ASCII string. -/
theorem sanitize_ascii_chars_witness :
    (sanitize_site_key "a cme!.x-1").data.all asciiSiteChar = true :=
  sanitize_ascii_chars "a cme!.x-1" (by decide)

/-! ## Claim C8: sanitization is idempotent -/

/-- Claim C8: the site-key sanitization is idempotent — sanitizing an
already-sanitized string returns it unchanged. -/
theorem sanitize_site_key_idempotent (s : String) :
    sanitize_site_key (sanitize_site_key s) = sanitize_site_key s := by
  unfold sanitize_site_key
  exact congrArg String.mk (mapSanitize_idem s.data)

/-! ## Claim C2: end-to-end default backup of `/var/www/acme/index.php` -/

/-- Claim C2, counterexample: with root `/backup` and task `42`, the
default-mode backup of `/var/www/acme/index.php` does NOT write the before
copy to `<task>/before/index.php` and does NOT create manifest key
`index.php`: `_extract_relative_path` splits after the `var\www\` marker,
so the relative path is `acme/index.php`, not the base name. -/
theorem default_backup_acme_claimed_paths_absent :
    (backup_file envA "/backup" fpA none none (some "42") stA).2.fs
      "/backup/acme/October 2026/task_42/before/index.php" = none
    ∧ (backup_file envA "/backup" fpA none none (some "42") stA).2.server_backup_map
      "index.php" = none := by
  exact ⟨by decide, by decide⟩

/-- Claim C2 (amended): with root `/backup`, current month `October 2026`
and task `42`, a default-mode `backup_file` call on
`/var/www/acme/index.php` (no prior manifest entry) writes the before copy
to `/backup/acme/October 2026/task_42/before/acme/index.php`, the after
copy to the equivalent `after/` path, and adds the in-memory manifest key
`acme/index.php` with site `acme`. -/
theorem default_backup_acme_actual_layout :
    (backup_file envA "/backup" fpA none none (some "42") stA).2.fs
        "/backup/acme/October 2026/task_42/before/acme/index.php" = some "v1"
    ∧ (backup_file envA "/backup" fpA none none (some "42") stA).2.fs
        "/backup/acme/October 2026/task_42/after/acme/index.php" = some "v1"
    ∧ (backup_file envA "/backup" fpA none none (some "42") stA).2.server_backup_map
        "acme/index.php"
        = some { first_backup_time := "2026-10-12 10:00:00"
                 last_backup_time := some "2026-10-12 10:00:00"
                 site := "acme" } := by
  exact ⟨by decide, by decide, by decide⟩

/-! ## Claim C3: archiving a task-level `before` folder -/

/-- Claim C3, counterexample: archiving
`/backup/acme/May 2025/task_42/before` with folder type `before` does NOT
produce a zip whose site token is `acme`: the site-name scan takes the
FIRST path segment that is word-leading, not `task_`-prefixed and not
`before`/`after`, which is the backup root's own directory name `backup`. -/
theorem zip_name_uses_root_segment_not_acme :
    zip_name taskBeforeParts (some "before") "12.10.2026.1007"
      = "backup_backup_before_12.10.2026.1007.zip"
    ∧ zip_name taskBeforeParts (some "before") "12.10.2026.1007"
      ≠ "backup_acme_before_12.10.2026.1007.zip" := by
  exact ⟨by decide, by decide⟩

/-- Claim C3 (amended): archiving `/backup/acme/May 2025/task_42/before`
with folder type `before` produces a zip named
`backup_backup_before_<DD.MM.YYYY.HHMM>.zip` — the site token is the first
qualifying path segment, here the backup root's name `backup` — placed in
the task folder `/backup/acme/May 2025/task_42`. -/
theorem zip_archive_task_before_layout :
    zip_dir taskBeforeParts = "/backup/acme/May 2025/task_42"
    ∧ zip_name taskBeforeParts (some "before") "12.10.2026.1007"
      = "backup_backup_before_12.10.2026.1007.zip" := by
  exact ⟨by decide, by decide⟩

/-! ## Claim C4: zip output placement across the tree -/

/-- Claim C4, counterexample: for the month-level leaf
`/backup/acme/May 2025/before` (no task segment on the path) the zip
builder returns `/backup/acme` — the SITE folder, two levels above the
leaf — not the month folder `/backup/acme/May 2025` that the claim
requires. -/
theorem zip_dir_month_leaf_not_month_folder :
    zip_dir monthBeforeParts = "/backup/acme"
    ∧ zip_dir monthBeforeParts ≠ "/backup/acme/May 2025" := by
  exact ⟨by decide, by decide⟩

/-- Claim C4 (amended): in a tree whose root, site and month segments are
not `task_`-prefixed and contain no `:`, the zip builder places the output
(1) for a `before`/`after` leaf under a task folder: in that task folder;
(2) for the task folder itself: in that same task folder;
(3) for a `before`/`after` leaf directly under a month folder: in the SITE
folder, i.e. two levels above the leaf (not the month folder). -/
theorem zip_dir_placement (r : List String) (s mo t leaf : String)
    (hr : ∀ p ∈ r, strStarts p "task_" = false)
    (hs : strStarts s "task_" = false)
    (hmo : strStarts mo "task_" = false)
    (ht : strStarts t "task_" = true)
    (hleaf : leaf = "before" ∨ leaf = "after")
    (hcolon : ∀ p ∈ r ++ [s, mo, t, leaf], p.data.contains ':' = false) :
    zip_dir (r ++ [s, mo, t, leaf]) = pathString (r ++ [s, mo, t])
    ∧ zip_dir (r ++ [s, mo, t]) = pathString (r ++ [s, mo, t])
    ∧ zip_dir (r ++ [s, mo, leaf]) = pathString (r ++ [s]) := by
  have hlt : strStarts leaf "task_" = false := by
    rcases hleaf with h | h <;> subst h <;> decide
  have hbl : (leaf == "before" || leaf == "after") = true := by
    rcases hleaf with h | h <;> subst h <;> decide
  have hfind4 : (r ++ [s, mo, t, leaf]).findIdx (fun p => strStarts p "task_")
      = r.length + 2 := by
    rw [findIdx_append_of_none _ _ _ hr]
    simp [List.findIdx_cons, hs, hmo, ht]
  have hfind3 : (r ++ [s, mo, t]).findIdx (fun p => strStarts p "task_")
      = r.length + 2 := by
    rw [findIdx_append_of_none _ _ _ hr]
    simp [List.findIdx_cons, hs, hmo, ht]
  have hany4 : (r ++ [s, mo, t, leaf]).any (fun p => strStarts p "task_") = true := by
    rw [List.any_eq_true]; exact ⟨t, by simp, ht⟩
  have hany3 : (r ++ [s, mo, t]).any (fun p => strStarts p "task_") = true := by
    rw [List.any_eq_true]; exact ⟨t, by simp, ht⟩
  have hcol4 : (r ++ [s, mo, t, leaf]).any (fun p => p.data.contains ':') = false := by
    rw [List.any_eq_false]; intro x hx
    rw [Bool.not_eq_true]; exact hcolon x hx
  have hcol3 : (r ++ [s, mo, t]).any (fun p => p.data.contains ':') = false := by
    rw [List.any_eq_false]; intro x hx
    have hx4 : x ∈ r ++ [s, mo, t, leaf] := by
      simp only [List.mem_append, List.mem_cons] at hx ⊢
      tauto
    rw [Bool.not_eq_true]; exact hcolon x hx4
  have hany2 : (r ++ [s, mo, leaf]).any (fun p => strStarts p "task_") = false := by
    rw [List.any_eq_false]; intro x hx
    simp only [List.mem_append, List.mem_cons, List.not_mem_nil, or_false] at hx
    rcases hx with hx | hx | hx | hx
    · simp [hr x hx]
    · subst hx; simp [hs]
    · subst hx; simp [hmo]
    · subst hx; simp [hlt]
  have htake4 : (r ++ [s, mo, t, leaf]).take (r.length + 2 + 1) = r ++ [s, mo, t] := by
    have h3 : r.length + 2 + 1 = r.length + 3 := rfl
    rw [h3, take_append_length]
    rfl
  have htake3 : (r ++ [s, mo, t]).take (r.length + 2 + 1) = r ++ [s, mo, t] := by
    have h3 : r.length + 2 + 1 = r.length + 3 := rfl
    rw [h3, take_append_length]
    rfl
  have heq2 : r ++ [s, mo, leaf] = (r ++ [s, mo]) ++ [leaf] := by simp
  have hlast2 : (r ++ [s, mo, leaf]).getLast? = some leaf := by
    rw [heq2, List.getLast?_concat]
  have hdrop2 : (r ++ [s, mo, leaf]).dropLast.dropLast = r ++ [s] := by
    rw [heq2, List.dropLast_concat,
        show r ++ [s, mo] = (r ++ [s]) ++ [mo] from by simp, List.dropLast_concat]
  refine ⟨?_, ?_, ?_⟩
  · simp only [zip_dir, hany4, hcol4, hfind4, htake4, if_true, if_false]
    rw [if_neg Bool.false_ne_true]
  · simp only [zip_dir, hany3, hcol3, hfind3, htake3, if_true, if_false]
    rw [if_neg Bool.false_ne_true]
  · simp only [zip_dir, hany2, hlast2, hbl, hdrop2, if_true, if_false]
    rw [if_neg Bool.false_ne_true]

/-- Witness for `zip_dir_placement` at a concrete tree. -/
theorem zip_dir_placement_witness :
    zip_dir ["backup", "acme", "May 2025", "task_7", "before"]
      = pathString ["backup", "acme", "May 2025", "task_7"]
    ∧ zip_dir ["backup", "acme", "May 2025", "task_7"]
      = pathString ["backup", "acme", "May 2025", "task_7"]
    ∧ zip_dir ["backup", "acme", "May 2025", "before"] = pathString ["backup", "acme"] := by
  have h := zip_dir_placement ["backup"] "acme" "May 2025" "task_7" "before"
    (by decide) (by decide) (by decide) (by decide) (Or.inl rfl) (by decide)
  exact h

/-! ## Claim C1: what a successful `backup_file` call does -/

/-- Claim C1, evaluated at the failing input: with root `/backup`, task
`42` and the example file on disk, a default-mode `backup_file` call — the
source file exists, is not excluded, and both copies succeed — completes
its copies and its in-memory manifest rewrite, yet returns the
`(None, None)` failure sentinel and leaves the config file unwritten.
`self._save_config()` at source line 246 raises `AttributeError` (the
`def _save_config` at line 342 is nested inside the module-level
`create_backup_zip` of line 255 and is never bound to `FtpBackupManager`),
and the `except` at line 250 turns every non-skipped call into the
sentinel without persisting anything, contradicting the claim's persisted
manifest and `(before_dir, after_dir)` result. -/
theorem backup_file_returns_sentinel_never_persists :
    (backup_file envA "/backup" fpA none none (some "42") stA).1 = (none, none)
    ∧ (backup_file envA "/backup" fpA none none (some "42") stA).2.config_file = none
    ∧ (backup_file envA "/backup" fpA none none (some "42") stA).2.fs
        "/backup/acme/October 2026/task_42/before/acme/index.php" = some "v1"
    ∧ (backup_file envA "/backup" fpA none none (some "42") stA).2.server_backup_map
        "acme/index.php"
        = some { first_backup_time := "2026-10-12 10:00:00"
                 last_backup_time := some "2026-10-12 10:00:00"
                 site := "acme" } := by
  refine ⟨by decide, ?_, by decide, by decide⟩
  rw [backup_file_run envA "/backup" fpA none none (some "42") stA (by decide) (by decide),
      finalize_config, modeStep_config]
  rfl

/-! ## Claim C6: `mode='before'` always overwrites the before slot -/

/-- Claim C6: for every existing, non-excluded file, `backup_file` with
`mode='before'` writes (overwriting any previous copy) the before-slot
file for the resolved relative path regardless of prior manifest state;
it creates a manifest entry with `first_backup_time = now` only when none
exists, and otherwise keeps the existing entry's `first_backup_time`. -/
theorem backup_before_mode_overwrites (env : Env) (root fp : String) (sn : Option String)
    (tn : Option String) (st : BackupState) (c : String)
    (hexcl : isExcluded fp = false) (hex : st.fs fp = some c) :
    (backup_file env root fp sn (some Mode.before) tn st).2.fs
        (pyJoin (resolveLayout env root fp sn tn).before_path
          (resolveLayout env root fp sn tn).relative_path) = some c
    ∧ (st.server_backup_map (resolveLayout env root fp sn tn).relative_path = none →
       (backup_file env root fp sn (some Mode.before) tn st).2.server_backup_map
           (resolveLayout env root fp sn tn).relative_path
         = some { first_backup_time := env.now
                  last_backup_time := some env.now
                  site := (resolveLayout env root fp sn tn).site_name })
    ∧ (∀ e, st.server_backup_map (resolveLayout env root fp sn tn).relative_path = some e →
       (backup_file env root fp sn (some Mode.before) tn st).2.server_backup_map
           (resolveLayout env root fp sn tn).relative_path
         = some { first_backup_time := e.first_backup_time
                  last_backup_time := some env.now
                  site := (resolveLayout env root fp sn tn).site_name }) := by
  have hex2 : (st.fs fp).isNone = false := by rw [hex]; rfl
  rw [backup_file_run env root fp sn (some Mode.before) tn st hexcl hex2]
  refine ⟨?_, ?_, ?_⟩
  · rw [finalize_fs, modeStep_before_fs, copyTo_self, hex]
  · intro h2
    have hm := modeStep_map_insert env (resolveLayout env root fp sn tn) fp
      (some Mode.before) st h2 (by simp)
    rw [finalize_map_some env (resolveLayout env root fp sn tn) _ _ hm, updMap_self]
  · intro e h2
    have hm := modeStep_map_keep env (resolveLayout env root fp sn tn) fp
      (some Mode.before) st e h2
    rw [finalize_map_some env (resolveLayout env root fp sn tn) _ e hm, updMap_self]

/-- Witness for `backup_before_mode_overwrites` at a concrete call. -/
theorem backup_before_mode_overwrites_witness :
    (backup_file envA "/backup" fpA none (some Mode.before) none stA).2.fs
        (pyJoin (resolveLayout envA "/backup" fpA none none).before_path
          (resolveLayout envA "/backup" fpA none none).relative_path) = some "v1" := by
  have h := backup_before_mode_overwrites envA "/backup" fpA none none stA "v1"
    (by decide) (by decide)
  exact h.1

/-! ## Claim C9: `first_backup_time` is never changed once set -/

/-- Claim C9: once a manifest entry exists for a key, no `backup_file`
call — in any mode, on any file, whether or not it is skipped — changes
that entry's `first_backup_time`: the entry is either left exactly as it
was, or rewritten only in its `last_backup_time` and `site` fields. -/
theorem backup_preserves_first_backup_time (env : Env) (root fp : String)
    (sn : Option String) (mode : Option Mode) (tn : Option String) (st : BackupState)
    (k : String) (e : Entry) (h : st.server_backup_map k = some e) :
    (backup_file env root fp sn mode tn st).2.server_backup_map k = some e
    ∨ (backup_file env root fp sn mode tn st).2.server_backup_map k
        = some { first_backup_time := e.first_backup_time
                 last_backup_time := some env.now
                 site := (resolveLayout env root fp sn tn).site_name } := by
  by_cases hx : isExcluded fp = true
  · left; rw [backup_file_skip env root fp sn mode tn st (Or.inl hx)]; exact h
  by_cases hn : (st.fs fp).isNone = true
  · left; rw [backup_file_skip env root fp sn mode tn st (Or.inr hn)]; exact h
  have hx2 : isExcluded fp = false := by revert hx; cases isExcluded fp <;> simp
  have hn2 : (st.fs fp).isNone = false := by revert hn; cases (st.fs fp).isNone <;> simp
  rw [backup_file_run env root fp sn mode tn st hx2 hn2]
  by_cases hk : k = (resolveLayout env root fp sn tn).relative_path
  · subst hk
    right
    have hm := modeStep_map_keep env (resolveLayout env root fp sn tn) fp mode st e h
    rw [finalize_map_some env (resolveLayout env root fp sn tn) _ e hm, updMap_self]
  · left
    rw [finalize_map_ne env (resolveLayout env root fp sn tn) _ k hk,
        modeStep_map_ne env (resolveLayout env root fp sn tn) fp mode st k hk]
    exact h

/-- Witness for `backup_preserves_first_backup_time` at a concrete state
with a pre-existing entry. -/
theorem backup_preserves_first_backup_time_witness :
    (backup_file envA "/backup" fpA none none none stB).2.server_backup_map
        "acme/index.php" = some entA
    ∨ (backup_file envA "/backup" fpA none none none stB).2.server_backup_map
        "acme/index.php"
        = some { first_backup_time := entA.first_backup_time
                 last_backup_time := some envA.now
                 site := (resolveLayout envA "/backup" fpA none none).site_name } :=
  backup_preserves_first_backup_time envA "/backup" fpA none none none stB
    "acme/index.php" entA (by decide)

/-! ## Claim C10: `mode='after'` never inserts; other entries untouched -/

/-- Claim C10: `backup_file` with `mode='after'` never creates a manifest
entry when none exists for the resolved relative path; when an entry does
exist, a successful after-mode call rewrites exactly its
`last_backup_time` and `site`; and every call, in any mode, leaves the
manifest entries of all other keys unchanged. -/
theorem backup_after_no_insert_and_frame (env : Env) (root fp : String)
    (sn : Option String) (tn : Option String) (st : BackupState) (k : String)
    (mode : Option Mode) (e : Entry) (c : String)
    (hk : k ≠ (resolveLayout env root fp sn tn).relative_path) :
    (st.server_backup_map (resolveLayout env root fp sn tn).relative_path = none →
      (backup_file env root fp sn (some Mode.after) tn st).2.server_backup_map
        (resolveLayout env root fp sn tn).relative_path = none)
    ∧ (st.server_backup_map (resolveLayout env root fp sn tn).relative_path = some e →
       isExcluded fp = false → st.fs fp = some c →
       (backup_file env root fp sn (some Mode.after) tn st).2.server_backup_map
           (resolveLayout env root fp sn tn).relative_path
         = some { first_backup_time := e.first_backup_time
                  last_backup_time := some env.now
                  site := (resolveLayout env root fp sn tn).site_name })
    ∧ (backup_file env root fp sn mode tn st).2.server_backup_map k
        = st.server_backup_map k := by
  refine ⟨?_, ?_, ?_⟩
  · intro h2
    by_cases hx : isExcluded fp = true
    · rw [backup_file_skip env root fp sn (some Mode.after) tn st (Or.inl hx)]; exact h2
    by_cases hn : (st.fs fp).isNone = true
    · rw [backup_file_skip env root fp sn (some Mode.after) tn st (Or.inr hn)]; exact h2
    have hx2 : isExcluded fp = false := by revert hx; cases isExcluded fp <;> simp
    have hn2 : (st.fs fp).isNone = false := by revert hn; cases (st.fs fp).isNone <;> simp
    rw [backup_file_run env root fp sn (some Mode.after) tn st hx2 hn2]
    have hm : (modeStep env (resolveLayout env root fp sn tn) fp (some Mode.after)
        st).server_backup_map (resolveLayout env root fp sn tn).relative_path = none := by
      rw [modeStep_after_map]; exact h2
    rw [finalize_map_none env (resolveLayout env root fp sn tn) _ hm,
        modeStep_after_map]
    exact h2
  · intro h2 hexcl hex
    have hn2 : (st.fs fp).isNone = false := by rw [hex]; rfl
    rw [backup_file_run env root fp sn (some Mode.after) tn st hexcl hn2]
    have hm := modeStep_map_keep env (resolveLayout env root fp sn tn) fp
      (some Mode.after) st e h2
    rw [finalize_map_some env (resolveLayout env root fp sn tn) _ e hm, updMap_self]
  · by_cases hx : isExcluded fp = true
    · rw [backup_file_skip env root fp sn mode tn st (Or.inl hx)]
    by_cases hn : (st.fs fp).isNone = true
    · rw [backup_file_skip env root fp sn mode tn st (Or.inr hn)]
    have hx2 : isExcluded fp = false := by revert hx; cases isExcluded fp <;> simp
    have hn2 : (st.fs fp).isNone = false := by revert hn; cases (st.fs fp).isNone <;> simp
    rw [backup_file_run env root fp sn mode tn st hx2 hn2]
    rw [finalize_map_ne env (resolveLayout env root fp sn tn) _ k hk,
        modeStep_map_ne env (resolveLayout env root fp sn tn) fp mode st k hk]

/-- Witness for `backup_after_no_insert_and_frame`: an after-mode call on a
fresh state leaves no entry; on a state with an entry it rewrites only
`last_backup_time` and `site`; a default-mode call leaves another key
untouched. -/
theorem backup_after_no_insert_and_frame_witness :
    (backup_file envA "/backup" fpA none (some Mode.after) none stA).2.server_backup_map
        "acme/index.php" = none
    ∧ (backup_file envA "/backup" fpA none (some Mode.after) none stB).2.server_backup_map
        "acme/index.php"
        = some { first_backup_time := entA.first_backup_time
                 last_backup_time := some envA.now
                 site := (resolveLayout envA "/backup" fpA none none).site_name }
    ∧ (backup_file envA "/backup" fpA none none none stB).2.server_backup_map "other.php"
        = stB.server_backup_map "other.php" := by
  have h1 := backup_after_no_insert_and_frame envA "/backup" fpA none none stA "other.php"
    none entA "v1" (by decide)
  have h2 := backup_after_no_insert_and_frame envA "/backup" fpA none none stB "other.php"
    none entA "v1" (by decide)
  exact ⟨h1.1 (by decide), h2.2.1 (by decide) (by decide) (by decide), h2.2.2⟩

/-! ## Claim C5: default mode twice — before keeps first content -/

/-- Claim C5: starting from a state in which the resolved relative path has
no manifest entry, calling `backup_file` in default mode, changing the
source file's content from `c1` to `c2`, and calling again in the same
month on the same host leaves the before-slot file holding `c1` (the
content at the first call) and the after-slot file holding `c2` (the
content at the second call).  The path-distinctness hypotheses rule out the
degenerate case of the source file living inside its own backup slots. -/
theorem backup_default_twice (env1 env2 : Env) (root fp : String) (tn : Option String)
    (st0 : BackupState) (c1 c2 : String)
    (hexcl : isExcluded fp = false)
    (hex : st0.fs fp = some c1)
    (hfresh : st0.server_backup_map (resolveLayout env1 root fp none tn).relative_path = none)
    (hmy : env2.monthYear = env1.monthYear)
    (hhost : env2.hostname = env1.hostname)
    (hfb : fp ≠ pyJoin (resolveLayout env1 root fp none tn).before_path
             (resolveLayout env1 root fp none tn).relative_path)
    (hba : pyJoin (resolveLayout env1 root fp none tn).before_path
             (resolveLayout env1 root fp none tn).relative_path
           ≠ pyJoin (resolveLayout env1 root fp none tn).after_path
             (resolveLayout env1 root fp none tn).relative_path) :
    (backup_file env2 root fp none none tn
        (midState (backup_file env1 root fp none none tn st0).2 fp c2)).2.fs
      (pyJoin (resolveLayout env1 root fp none tn).before_path
        (resolveLayout env1 root fp none tn).relative_path) = some c1
    ∧ (backup_file env2 root fp none none tn
        (midState (backup_file env1 root fp none none tn st0).2 fp c2)).2.fs
      (pyJoin (resolveLayout env1 root fp none tn).after_path
        (resolveLayout env1 root fp none tn).relative_path) = some c2 := by
  have hex2 : (st0.fs fp).isNone = false := by rw [hex]; rfl
  have hL2 := resolveLayout_env_congr env1 env2 root fp none tn hmy hhost
  have hrun1 := backup_file_run env1 root fp none none tn st0 hexcl hex2
  have hst1 : (backup_file env1 root fp none none tn st0).2
      = finalizeEntry env1 (resolveLayout env1 root fp none tn)
          (modeStep env1 (resolveLayout env1 root fp none tn) fp none st0) := by
    rw [hrun1]
  have hmap1 : (backup_file env1 root fp none none tn st0).2.server_backup_map
      (resolveLayout env1 root fp none tn).relative_path
      = some { first_backup_time := env1.now
               last_backup_time := some env1.now
               site := (resolveLayout env1 root fp none tn).site_name } := by
    rw [hst1]
    have hm := modeStep_map_insert env1 (resolveLayout env1 root fp none tn) fp none st0
      hfresh (by simp)
    rw [finalize_map_some env1 (resolveLayout env1 root fp none tn) _ _ hm, updMap_self]
  have hfs1 : (backup_file env1 root fp none none tn st0).2.fs
      = copyTo (copyTo st0.fs fp
          (pyJoin (resolveLayout env1 root fp none tn).before_path
            (resolveLayout env1 root fp none tn).relative_path)) fp
          (pyJoin (resolveLayout env1 root fp none tn).after_path
            (resolveLayout env1 root fp none tn).relative_path) := by
    rw [hst1, finalize_fs,
        modeStep_default_fs_fresh env1 (resolveLayout env1 root fp none tn) fp st0 hfresh]
  have hmid_map : (midState (backup_file env1 root fp none none tn st0).2 fp
      c2).server_backup_map (resolveLayout env1 root fp none tn).relative_path
      = some { first_backup_time := env1.now
               last_backup_time := some env1.now
               site := (resolveLayout env1 root fp none tn).site_name } := hmap1
  have hmid_fp : (midState (backup_file env1 root fp none none tn st0).2 fp c2).fs fp
      = some c2 := by
    simp [midState]
  have hex3 : ((midState (backup_file env1 root fp none none tn st0).2 fp c2).fs fp).isNone
      = false := by
    rw [hmid_fp]; rfl
  have hrun2 := backup_file_run env2 root fp none none tn
    (midState (backup_file env1 root fp none none tn st0).2 fp c2) hexcl hex3
  have hst2 : (backup_file env2 root fp none none tn
      (midState (backup_file env1 root fp none none tn st0).2 fp c2)).2
      = finalizeEntry env2 (resolveLayout env1 root fp none tn)
          (modeStep env2 (resolveLayout env1 root fp none tn) fp none
            (midState (backup_file env1 root fp none none tn st0).2 fp c2)) := by
    rw [hrun2, hL2]
  have hfs2 : (backup_file env2 root fp none none tn
      (midState (backup_file env1 root fp none none tn st0).2 fp c2)).2.fs
      = copyTo (midState (backup_file env1 root fp none none tn st0).2 fp c2).fs fp
          (pyJoin (resolveLayout env1 root fp none tn).after_path
            (resolveLayout env1 root fp none tn).relative_path) := by
    rw [hst2, finalize_fs,
        modeStep_default_fs_seen env2 (resolveLayout env1 root fp none tn) fp _ _ hmid_map]
  constructor
  · rw [hfs2, copyTo_ne _ _ _ _ hba]
    have hmid_bf : (midState (backup_file env1 root fp none none tn st0).2 fp c2).fs
        (pyJoin (resolveLayout env1 root fp none tn).before_path
          (resolveLayout env1 root fp none tn).relative_path)
        = (backup_file env1 root fp none none tn st0).2.fs
          (pyJoin (resolveLayout env1 root fp none tn).before_path
            (resolveLayout env1 root fp none tn).relative_path) := by
      simp [midState, Ne.symm hfb]
    rw [hmid_bf, hfs1, copyTo_ne _ _ _ _ hba, copyTo_self, hex]
  · rw [hfs2, copyTo_self, hmid_fp]

/-- Witness for `backup_default_twice` at the concrete example file, with
content `v1` at the first call and `v2` at the second. -/
theorem backup_default_twice_witness :
    (backup_file envB "/backup" fpA none none (some "42")
        (midState (backup_file envA "/backup" fpA none none (some "42") stA).2 fpA "v2")).2.fs
      (pyJoin (resolveLayout envA "/backup" fpA none (some "42")).before_path
        (resolveLayout envA "/backup" fpA none (some "42")).relative_path) = some "v1"
    ∧ (backup_file envB "/backup" fpA none none (some "42")
        (midState (backup_file envA "/backup" fpA none none (some "42") stA).2 fpA "v2")).2.fs
      (pyJoin (resolveLayout envA "/backup" fpA none (some "42")).after_path
        (resolveLayout envA "/backup" fpA none (some "42")).relative_path) = some "v2" :=
  backup_default_twice envA envB "/backup" fpA (some "42") stA "v1" "v2"
    (by decide) (by decide) (by decide) rfl rfl (by decide) (by decide)
